import Mathlib

/-!
Shallow embedding of the motion-controller logic of the filter-every-well
repository: `pp96.py` (class `PressureProcessor`) and the mirrored-servo /
actuator functions of `test_Waters.py`.

Angles are modelled as rationals (the Python floats involved are produced by
additions of unit steps, subtractions from 180 and exact small divisions, all
of which are exact in IEEE doubles for the magnitudes in play).  Every channel
write and every sleep performed by an operation is recorded in an event trace.
PWM writes may fail: a move operation takes a failure pattern `failAt` indexed
by the count of write attempts made so far; a failing write raises, which is
modelled by the operation stopping and reporting `ok = false`.  The possibly
non-terminating one-degree `while` loops are embedded with explicit fuel
(`none` means the loop has not exited within `fuel` iterations).
-/

/-- The three PWM channels used by the controller: the two mirror-mounted
servos and the linear actuator. -/
inductive Chan where
  | servo1
  | servo2
  | actuator
deriving DecidableEq, Repr

/-- Observable event of a move operation: a channel write (`none` detaches the
channel, i.e. Python `angle = None`) or a sleep of the given duration. -/
inductive Ev where
  | write (c : Chan) (v : Option ℚ)
  | sleep (d : ℚ)
deriving DecidableEq, Repr

/-- Result of running an operation: the events it performed, the next write
attempt index, and whether it completed without raising. -/
structure FRes where
  evs : List Ev
  idx : ℕ
  ok : Bool
deriving DecidableEq, Repr

/-- Failure pattern under which no write attempt fails. -/
def noFail : ℕ → Bool := fun _ => false

/-- Count of writes made to channel `c` in a trace. -/
def countWrites (c : Chan) : List Ev → ℕ
  | [] => 0
  | Ev.write c' _ :: rest => (if c' = c then 1 else 0) + countWrites c rest
  | Ev.sleep _ :: rest => countWrites c rest

/-- Count of sleep events in a trace. -/
def countSleeps : List Ev → ℕ
  | [] => 0
  | Ev.write _ _ :: rest => countSleeps rest
  | Ev.sleep _ :: rest => 1 + countSleeps rest

/-- From `test_Waters.py`, `step_delay_from_speed`: clamp the percentage to
[1,100] and linearly map 1..100% to 30..1 ms per degree, returned in seconds. -/
def step_delay_from_speed (pct : ℤ) : ℚ :=
  (((100 - (↑(max 1 (min 100 pct)) : ℚ)) * (30 - 1)) / (100 - 1) + 1) / 1000

/-- From `test_Waters.py`, `_write_mirrored`: clamp the angle to [0,180] and
write it to servo channel 1 and its mirror `180 - angle` to servo channel 2. -/
def write_mirrored (a : ℤ) : List Ev :=
  [Ev.write Chan.servo1 (some (↑(max 0 (min 180 a)) : ℚ)),
   Ev.write Chan.servo2 (some (180 - (↑(max 0 (min 180 a)) : ℚ)))]

/-- The one-degree `while` loop of `move_to_angle_mirrored` in
`test_Waters.py`: while the angle differs from the target, advance by `step`,
write the mirrored pair and sleep `dly`.  Fueled; `none` means the loop did
not exit within `fuel` iterations. -/
def mirroredWalkLoop (dly : ℚ) (step target : ℤ) : ℕ → ℤ → Option (List Ev)
  | 0, a => if a = target then some [] else none
  | fuel + 1, a =>
    if a = target then some []
    else
      match mirroredWalkLoop dly step target fuel (a + step) with
      | none => none
      | some evs => some (write_mirrored (a + step) ++ (Ev.sleep dly :: evs))

/-- From `test_Waters.py`, `move_to_angle_mirrored`: clamp the target, jump
directly if no current angle is tracked, otherwise walk one degree at a time
(step `1` if `target ≥ current` else `-1`) writing the mirrored pair at every
step, then record the target as current and write the mirrored target once
more.  Returns the event trace and the new tracked angle. -/
def move_to_angle_mirrored (fuel : ℕ) (speed : ℤ) (cur : Option ℤ) (target0 : ℤ) :
    Option (List Ev × ℤ) :=
  match cur with
  | none => some (write_mirrored (max 0 (min 180 target0)), max 0 (min 180 target0))
  | some c =>
    match mirroredWalkLoop (step_delay_from_speed speed)
        (if max 0 (min 180 target0) ≥ c then 1 else -1) (max 0 (min 180 target0)) fuel c with
    | none => none
    | some evs => some (evs ++ write_mirrored (max 0 (min 180 target0)), max 0 (min 180 target0))

/-- Configuration and mutable state of `PressureProcessor` (`pp96.py`): the
named servo angles, the actuator end angles, the (constructor-clamped) speed
percentage and `_actuator_current_angle`, the tracked actuator position. -/
structure PPState where
  servo_up_angle : ℚ
  servo_down_angle : ℚ
  servo_neutral_angle : ℚ
  actuator_in_angle : ℚ
  actuator_out_angle : ℚ
  actuator_speed_percent : ℤ
  actuator_current_angle : ℚ
deriving DecidableEq, Repr

/-- The constructor's clamp of `actuator_speed_percent`:
`max(1, min(100, actuator_speed_percent))`. -/
def init_speed (p : ℤ) : ℤ := max 1 (min 100 p)

/-- From `pp96.py`, `_reset_servos`: write the neutral angle to servo 1 and
its mirror `180 - neutral` to servo 2.  Either write may fail, in which case
the operation stops and reports `ok = false`. -/
def reset_servos (failAt : ℕ → Bool) (idx : ℕ) (s : PPState) : FRes :=
  if failAt idx then ⟨[], idx + 1, false⟩
  else if failAt (idx + 1) then
    ⟨[Ev.write Chan.servo1 (some s.servo_neutral_angle)], idx + 2, false⟩
  else
    ⟨[Ev.write Chan.servo1 (some s.servo_neutral_angle),
      Ev.write Chan.servo2 (some (180 - s.servo_neutral_angle))], idx + 2, true⟩

/-- From `pp96.py`, `_set_mirrored_position`: write `servo_1_angle` to servo 1
and `180 - servo_1_angle` to servo 2, then sleep `hold_time`. -/
def set_mirrored_position (failAt : ℕ → Bool) (idx : ℕ) (a hold : ℚ) : FRes :=
  if failAt idx then ⟨[], idx + 1, false⟩
  else if failAt (idx + 1) then ⟨[Ev.write Chan.servo1 (some a)], idx + 2, false⟩
  else
    ⟨[Ev.write Chan.servo1 (some a), Ev.write Chan.servo2 (some (180 - a)),
      Ev.sleep hold], idx + 2, true⟩

/-- From `pp96.py`, `press_up`: set the mirrored pair to the UP angle holding
`hold` seconds, then reset the servos to neutral. -/
def press_up (failAt : ℕ → Bool) (idx : ℕ) (s : PPState) (hold : ℚ) : FRes :=
  match set_mirrored_position failAt idx s.servo_up_angle hold with
  | r1 =>
    if r1.ok then
      match reset_servos failAt r1.idx s with
      | r2 => ⟨r1.evs ++ r2.evs, r2.idx, r2.ok⟩
    else r1

/-- From `pp96.py`, `_step_delay_from_speed`: the same linear 1..100% to
30..1 ms-per-degree map, reading the stored (already clamped) speed. -/
def step_delay_from_speed_pp (s : PPState) : ℚ :=
  (((100 - (s.actuator_speed_percent : ℚ)) * (30 - 1)) / (100 - 1) + 1) / 1000

/-- The one-degree `while` loop of `_move_actuator_smooth` in `pp96.py`:
while the angle differs from the target, advance by `step`, write the
actuator channel (the write may fail, aborting with `ok = false`) and sleep
`dly`.  Fueled; `none` means the loop did not exit within `fuel` iterations. -/
def walkF (failAt : ℕ → Bool) (step dly target : ℚ) : ℕ → ℕ → ℚ → Option FRes
  | 0, idx, angle => if angle = target then some ⟨[], idx, true⟩ else none
  | fuel + 1, idx, angle =>
    if angle = target then some ⟨[], idx, true⟩
    else if failAt idx then some ⟨[], idx + 1, false⟩
    else
      match walkF failAt step dly target fuel (idx + 1) (angle + step) with
      | none => none
      | some r =>
        some ⟨Ev.write Chan.actuator (some (angle + step)) :: Ev.sleep dly :: r.evs,
              r.idx, r.ok⟩

/-- From `pp96.py`, `_move_actuator_smooth`: clamp the target to [0,180],
return immediately if the tracked angle already equals it, otherwise walk one
degree at a time (step `1` if `target > current` else `-1`) with the
speed-derived delay, and update the tracked angle to the target only when the
walk completes without raising.  Returns the run result paired with the new
tracked angle. -/
def move_actuator_smooth (failAt : ℕ → Bool) (fuel idx : ℕ) (s : PPState) (target0 : ℚ) :
    Option (FRes × ℚ) :=
  if s.actuator_current_angle = max 0 (min 180 target0) then
    some (⟨[], idx, true⟩, s.actuator_current_angle)
  else
    match walkF failAt (if max 0 (min 180 target0) > s.actuator_current_angle then 1 else -1)
        (step_delay_from_speed_pp s) (max 0 (min 180 target0)) fuel idx
        s.actuator_current_angle with
    | none => none
    | some r =>
      some (r, if r.ok then max 0 (min 180 target0) else s.actuator_current_angle)

/-- From `pp96.py`, `plate_in`: smooth move to `actuator_in_angle`, or, when
`smooth` is false, a single direct write of `actuator_in_angle` (unclamped)
followed by updating the tracked angle to that exact value. -/
def plate_in (failAt : ℕ → Bool) (fuel idx : ℕ) (smooth : Bool) (s : PPState) :
    Option (FRes × ℚ) :=
  if smooth then move_actuator_smooth failAt fuel idx s s.actuator_in_angle
  else if failAt idx then some (⟨[], idx + 1, false⟩, s.actuator_current_angle)
  else
    some (⟨[Ev.write Chan.actuator (some s.actuator_in_angle)], idx + 1, true⟩,
          s.actuator_in_angle)

/-- From `pp96.py`, `plate_out`: smooth move to `actuator_out_angle`, or, when
`smooth` is false, a single direct write of `actuator_out_angle` (unclamped)
followed by updating the tracked angle to that exact value. -/
def plate_out (failAt : ℕ → Bool) (fuel idx : ℕ) (smooth : Bool) (s : PPState) :
    Option (FRes × ℚ) :=
  if smooth then move_actuator_smooth failAt fuel idx s s.actuator_out_angle
  else if failAt idx then some (⟨[], idx + 1, false⟩, s.actuator_current_angle)
  else
    some (⟨[Ev.write Chan.actuator (some s.actuator_out_angle)], idx + 1, true⟩,
          s.actuator_out_angle)

/-- The `try`-guarded detach block of `shutdown` in `pp96.py`: set servo 1,
servo 2 and the actuator channel to `None` in order; the first detach that
fails aborts the block but the exception is swallowed (`ok` is always
`true`).  Detach failures are drawn from their own pattern `detachFail`,
indexed 0, 1, 2. -/
def detach_channels (detachFail : ℕ → Bool) : FRes :=
  if detachFail 0 then ⟨[], 1, true⟩
  else if detachFail 1 then ⟨[Ev.write Chan.servo1 none], 2, true⟩
  else if detachFail 2 then
    ⟨[Ev.write Chan.servo1 none, Ev.write Chan.servo2 none], 3, true⟩
  else
    ⟨[Ev.write Chan.servo1 none, Ev.write Chan.servo2 none,
      Ev.write Chan.actuator none], 3, true⟩

/-- From `pp96.py`, `shutdown`: reset the servos to neutral, smoothly return
the plate to the OUT position, sleep 0.2 s, then detach all three channels
with any detach failure suppressed.  The reset and plate-out writes are not
guarded: a failure there propagates (`ok = false`). -/
def shutdown (failAt detachFail : ℕ → Bool) (fuel idx : ℕ) (s : PPState) :
    Option (FRes × ℚ) :=
  match reset_servos failAt idx s with
  | r1 =>
    if r1.ok then
      match plate_out failAt fuel r1.idx true s with
      | none => none
      | some (r2, tr) =>
        if r2.ok then
          some (⟨r1.evs ++ r2.evs ++ (Ev.sleep (1/5) :: (detach_channels detachFail).evs),
                 r2.idx, true⟩, tr)
        else some (⟨r1.evs ++ r2.evs, r2.idx, false⟩, tr)
    else some (r1, s.actuator_current_angle)

/-- A trace in which every servo write comes as an adjacent mirrored pair:
servo 1 is written some angle `a` and servo 2 is written `180 - a`
immediately after, so the commanded secondary angle equals `180` minus the
commanded primary angle after every observable step. -/
inductive MirroredEvs : List Ev → Prop
  | nil : MirroredEvs []
  | sleep (d : ℚ) (rest : List Ev) : MirroredEvs rest → MirroredEvs (Ev.sleep d :: rest)
  | pair (a : ℚ) (rest : List Ev) : MirroredEvs rest →
      MirroredEvs (Ev.write Chan.servo1 (some a) ::
        Ev.write Chan.servo2 (some (180 - a)) :: rest)

/-- Controller state with the default configuration of `PressureProcessor`
(up 30, down 150, neutral 90, actuator in 0 / out 180) at speed 100 and the
initial tracked actuator angle 180. -/
def s_default : PPState := ⟨30, 150, 90, 0, 180, 100, 180⟩

/-- Controller state with the default configuration at the default speed 60,
tracked actuator angle at its resting position 180. -/
def s_rest : PPState := ⟨30, 150, 90, 0, 180, 60, 180⟩

/-- Concrete mirrored-walk trace: speed 60, from tracked angle 90 to target
92, two one-degree steps then the final (repeated) target write. -/
def c1_walk_evs : List Ev :=
  [Ev.write Chan.servo1 (some 91), Ev.write Chan.servo2 (some 89),
   Ev.sleep (1259/99000),
   Ev.write Chan.servo1 (some 92), Ev.write Chan.servo2 (some 88),
   Ev.sleep (1259/99000),
   Ev.write Chan.servo1 (some 92), Ev.write Chan.servo2 (some 88)]

/-- The two events of the second, redundant mirrored move to 90 from tracked
angle 90: the trailing `_write_mirrored(target)` of `move_to_angle_mirrored`
runs even when the walk loop body never executes. -/
def c5_evs : List Ev := [Ev.write Chan.servo1 (some 90), Ev.write Chan.servo2 (some 90)]

/-- Controller state at tracked actuator angle 0 used to exhibit a failing
write during a move. -/
def s_w8 : PPState := ⟨30, 150, 90, 0, 180, 60, 0⟩

/-- Result of a successful shutdown from the resting state in which every
detach attempt fails: the detach block contributes no events but shutdown
still reports success. -/
def c9_res : FRes :=
  ⟨[Ev.write Chan.servo1 (some 90), Ev.write Chan.servo2 (some 90), Ev.sleep (1/5)], 2, true⟩

/-- Controller state configured with an out-of-range actuator IN angle of
200°, tracked angle at the resting position 180. -/
def s_oob : PPState := ⟨30, 150, 90, 200, 180, 60, 180⟩

/-- Appending two mirrored traces yields a mirrored trace. -/
theorem MirroredEvs.append {xs ys : List Ev} (hx : MirroredEvs xs) (hy : MirroredEvs ys) :
    MirroredEvs (xs ++ ys) := by
  induction hx with
  | nil => simpa using hy
  | sleep d rest _ ih => exact MirroredEvs.sleep d _ ih
  | pair a rest _ ih => exact MirroredEvs.pair a _ ih

/-- A single `_write_mirrored` emission is a mirrored pair. -/
theorem write_mirrored_mirroredEvs (a : ℤ) : MirroredEvs (write_mirrored a) :=
  MirroredEvs.pair _ _ MirroredEvs.nil

/-- Every trace produced by the mirrored walk loop is mirrored. -/
theorem mirroredWalkLoop_mirroredEvs (dly : ℚ) (step target : ℤ) :
    ∀ (fuel : ℕ) (a : ℤ) (evs : List Ev),
      mirroredWalkLoop dly step target fuel a = some evs → MirroredEvs evs := by
  intro fuel
  induction fuel with
  | zero =>
    intro a evs h
    simp only [mirroredWalkLoop] at h
    split at h
    · cases h; exact MirroredEvs.nil
    · cases h
  | succ n ih =>
    intro a evs h
    simp only [mirroredWalkLoop] at h
    split at h
    · cases h; exact MirroredEvs.nil
    · cases hrec : mirroredWalkLoop dly step target n (a + step) with
      | none => rw [hrec] at h; cases h
      | some evs' =>
        rw [hrec] at h
        cases h
        exact (write_mirrored_mirroredEvs (a + step)).append
          (MirroredEvs.sleep dly _ (ih (a + step) evs' hrec))

/-- The mirrored walk loop exits within `n` iterations when the target lies
exactly `n` unit steps away. -/
theorem mirroredWalkLoop_reaches (dly : ℚ) (step : ℤ) (hstep : step = 1 ∨ step = -1) :
    ∀ (n : ℕ) (a target : ℤ), target = a + n * step →
      ∃ evs, mirroredWalkLoop dly step target n a = some evs := by
  intro n
  induction n with
  | zero =>
    intro a target htar
    refine ⟨[], ?_⟩
    simp only [mirroredWalkLoop]
    rw [if_pos]
    omega
  | succ n ih =>
    intro a target htar
    have hne : a ≠ target := by rcases hstep with h | h <;> subst h <;> omega
    obtain ⟨evs, hrec⟩ := ih (a + step) target (by push_cast at htar ⊢; linarith)
    refine ⟨write_mirrored (a + step) ++ (Ev.sleep dly :: evs), ?_⟩
    simp only [mirroredWalkLoop]
    rw [if_neg hne, hrec]

/-- Under the no-failure pattern, whenever the actuator walk loop exits it
reports success. -/
theorem walkF_ok_of_noFail (step dly target : ℚ) :
    ∀ (fuel idx : ℕ) (a : ℚ) (r : FRes),
      walkF noFail step dly target fuel idx a = some r → r.ok = true := by
  intro fuel
  induction fuel with
  | zero =>
    intro idx a r h
    simp only [walkF] at h
    split at h
    · cases h; rfl
    · cases h
  | succ n ih =>
    intro idx a r h
    simp only [walkF, noFail, Bool.false_eq_true, if_false] at h
    split at h
    · cases h; rfl
    · cases hrec : walkF noFail step dly target n (idx + 1) (a + step) with
      | none => rw [hrec] at h; cases h
      | some r' =>
        rw [hrec] at h
        cases h
        exact ih (idx + 1) (a + step) r' hrec

/-- Under the no-failure pattern, the actuator walk loop exits successfully
within `n` iterations when the target lies exactly `n` unit steps away. -/
theorem walkF_reaches (dly step : ℚ) (hstep : step = 1 ∨ step = -1) :
    ∀ (n idx : ℕ) (a target : ℚ), target = a + n * step →
      ∃ evs, walkF noFail step dly target n idx a = some ⟨evs, idx + n, true⟩ := by
  intro n
  induction n with
  | zero =>
    intro idx a target htar
    refine ⟨[], ?_⟩
    simp only [walkF]
    rw [if_pos (by push_cast at htar; simpa using htar.symm)]
    simp
  | succ n ih =>
    intro idx a target htar
    have hcast : ((n : ℚ) + 1) ≠ 0 := by positivity
    have hne : a ≠ target := by
      intro heq
      rcases hstep with h | h <;> subst h <;> push_cast at htar <;> rw [← heq] at htar <;>
        [linarith [htar]; linarith [htar]]
    obtain ⟨evs, hrec⟩ := ih (idx + 1) (a + step) target (by push_cast at htar ⊢; linarith)
    refine ⟨Ev.write Chan.actuator (some (a + step)) :: Ev.sleep dly :: evs, ?_⟩
    simp only [walkF, noFail, Bool.false_eq_true, if_false]
    rw [if_neg hne, hrec]
    have hidx : idx + 1 + n = idx + (n + 1) := by omega
    rw [hidx]

/-- When the difference between target and start is not an integer, the unit
step walk loop never exits: the loop condition is an exact inequality. -/
theorem walkF_none_of_not_int (dly step target : ℚ) (hstep : step = 1 ∨ step = -1) :
    ∀ (fuel idx : ℕ) (a : ℚ), (∀ k : ℤ, target - a ≠ k) →
      walkF noFail step dly target fuel idx a = none := by
  intro fuel
  induction fuel with
  | zero =>
    intro idx a hint
    simp only [walkF]
    rw [if_neg]
    intro heq
    exact hint 0 (by rw [heq]; simp)
  | succ n ih =>
    intro idx a hint
    have hne : a ≠ target := by
      intro heq
      exact hint 0 (by rw [heq]; simp)
    have hint' : ∀ k : ℤ, target - (a + step) ≠ k := by
      intro k hk
      rcases hstep with h | h
      · exact hint (k + 1) (by subst h; push_cast; linarith)
      · exact hint (k - 1) (by subst h; push_cast; linarith)
    simp only [walkF, noFail, Bool.false_eq_true, if_false]
    rw [if_neg hne, ih (idx + 1) (a + step) hint']

/-- Running `_reset_servos` with no write failures: both mirrored writes
succeed. -/
theorem reset_servos_noFail (idx : ℕ) (s : PPState) :
    reset_servos noFail idx s =
      ⟨[Ev.write Chan.servo1 (some s.servo_neutral_angle),
        Ev.write Chan.servo2 (some (180 - s.servo_neutral_angle))], idx + 2, true⟩ := by
  simp [reset_servos, noFail]

/-- Running `_set_mirrored_position` with no write failures: both mirrored
writes succeed, then the hold sleep happens. -/
theorem set_mirrored_position_noFail (idx : ℕ) (a hold : ℚ) :
    set_mirrored_position noFail idx a hold =
      ⟨[Ev.write Chan.servo1 (some a), Ev.write Chan.servo2 (some (180 - a)),
        Ev.sleep hold], idx + 2, true⟩ := by
  simp [set_mirrored_position, noFail]

/-- Running `press_up` with no write failures: one mirrored write of the UP
angle, the hold sleep, then one mirrored write of the neutral angle. -/
theorem press_up_noFail (idx : ℕ) (s : PPState) (hold : ℚ) :
    press_up noFail idx s hold =
      ⟨[Ev.write Chan.servo1 (some s.servo_up_angle),
        Ev.write Chan.servo2 (some (180 - s.servo_up_angle)),
        Ev.sleep hold,
        Ev.write Chan.servo1 (some s.servo_neutral_angle),
        Ev.write Chan.servo2 (some (180 - s.servo_neutral_angle))], idx + 4, true⟩ := by
  simp only [press_up, set_mirrored_position_noFail, reset_servos_noFail]
  norm_num

/-- Under the no-failure pattern, `_move_actuator_smooth` reports success
whenever its walk loop exits. -/
theorem move_actuator_smooth_ok_of_noFail (fuel idx : ℕ) (s : PPState) (t : ℚ)
    (r : FRes) (tr : ℚ) (h : move_actuator_smooth noFail fuel idx s t = some (r, tr)) :
    r.ok = true := by
  simp only [move_actuator_smooth] at h
  split at h
  · cases h; rfl
  · split at h
    · cases h
    · rename_i heq
      cases h
      exact walkF_ok_of_noFail _ _ _ fuel idx _ r heq

/-- If `_move_actuator_smooth` raises (some write failed), the tracked
actuator angle is left unchanged. -/
theorem move_actuator_smooth_fail_tracked (failAt : ℕ → Bool) (fuel idx : ℕ)
    (s : PPState) (t : ℚ) (r : FRes) (tr : ℚ)
    (h : move_actuator_smooth failAt fuel idx s t = some (r, tr)) (hok : r.ok = false) :
    tr = s.actuator_current_angle := by
  simp only [move_actuator_smooth] at h
  split at h
  · cases h; rfl
  · split at h
    · cases h
    · cases h
      rw [hok]
      simp

/-- C1: Mirror invariant: for every mirrored-pair operation — `_reset_servos`,
`_set_mirrored_position` and the mirrored walk `move_to_angle_mirrored` — the
trace of channel writes consists of adjacent mirrored pairs (servo 2 is
written `180 -` the servo-1 angle immediately after every servo-1 write), so
the commanded secondary angle equals 180 minus the commanded primary angle
after the operation completes and, for the walk, after every intermediate
per-degree write. -/
theorem c1_mirror_invariant :
    (∀ (idx : ℕ) (s : PPState), MirroredEvs (reset_servos noFail idx s).evs) ∧
    (∀ (idx : ℕ) (a hold : ℚ), MirroredEvs (set_mirrored_position noFail idx a hold).evs) ∧
    (∀ (fuel : ℕ) (speed : ℤ) (cur : Option ℤ) (target : ℤ) (evs : List Ev) (tr : ℤ),
      move_to_angle_mirrored fuel speed cur target = some (evs, tr) → MirroredEvs evs) := by
  refine ⟨?_, ?_, ?_⟩
  · intro idx s
    rw [reset_servos_noFail]
    exact MirroredEvs.pair _ _ MirroredEvs.nil
  · intro idx a hold
    rw [set_mirrored_position_noFail]
    exact MirroredEvs.pair _ _ (MirroredEvs.sleep _ _ MirroredEvs.nil)
  · intro fuel speed cur target evs tr h
    cases cur with
    | none =>
      simp only [move_to_angle_mirrored] at h
      cases h
      exact write_mirrored_mirroredEvs _
    | some c =>
      simp only [move_to_angle_mirrored] at h
      split at h
      · cases h
      · rename_i heq
        cases h
        exact (mirroredWalkLoop_mirroredEvs _ _ _ fuel c _ heq).append
          (write_mirrored_mirroredEvs _)

/-- Witness for C1 at a concrete input: the walk from 90 to 92 produces a
mirrored trace. -/
theorem c1_mirror_invariant_witness : MirroredEvs c1_walk_evs :=
  c1_mirror_invariant.2.2 2 60 (some 90) 92 c1_walk_evs 92 (by
    norm_num [move_to_angle_mirrored, mirroredWalkLoop, write_mirrored,
      step_delay_from_speed, c1_walk_evs])

/-- C2 counterexample: with the default configuration (up angle 30, neutral
90) at speed 100 and tracked primary angle 90, `press_up(hold_time=0.1)`
makes exactly 2 writes to each servo channel, not 120: `press_up` in
`pp96.py` jumps directly to the mirrored position and back, with no
one-degree sweep. -/
theorem c2_press_counterexample :
    countWrites Chan.servo1 (press_up noFail 0 s_default (1/10)).evs = 2 ∧
    countWrites Chan.servo2 (press_up noFail 0 s_default (1/10)).evs = 2 ∧
    (countWrites Chan.servo1 (press_up noFail 0 s_default (1/10)).evs == 120) = false := by
  rw [press_up_noFail]
  simp +decide [countWrites, s_default]

/-- C2 (amended): `press_up(hold_time)` writes the UP position once to each
channel (primary `servo_up_angle`, secondary `180 - servo_up_angle`), sleeps
`hold_time` with no writes, then writes neutral once (primary
`servo_neutral_angle`, secondary `180 -` it): 2 writes to each servo channel
in total, mirrored at every write, with no per-degree stepping. -/
theorem c2_press_gesture (idx : ℕ) (s : PPState) (hold : ℚ) :
    press_up noFail idx s hold =
      ⟨[Ev.write Chan.servo1 (some s.servo_up_angle),
        Ev.write Chan.servo2 (some (180 - s.servo_up_angle)),
        Ev.sleep hold,
        Ev.write Chan.servo1 (some s.servo_neutral_angle),
        Ev.write Chan.servo2 (some (180 - s.servo_neutral_angle))], idx + 4, true⟩ ∧
    countWrites Chan.servo1 (press_up noFail idx s hold).evs = 2 ∧
    countWrites Chan.servo2 (press_up noFail idx s hold).evs = 2 := by
  refine ⟨press_up_noFail idx s hold, ?_, ?_⟩ <;> rw [press_up_noFail] <;>
    simp +decide [countWrites]

/-- C3 counterexample: run `shutdown()` from the default resting state (its
tracked angle is already 180, so the plate-out walk is a no-op and the state
after shutdown is `s_rest` again), then call `press_up`: the call succeeds
(`ok = true`) and performs 2 writes per servo channel, not zero — there is no
terminal-state error, because `shutdown` records no lifecycle state at all. -/
theorem c3_shutdown_counterexample :
    shutdown noFail noFail 0 0 s_rest =
      some (⟨[Ev.write Chan.servo1 (some 90), Ev.write Chan.servo2 (some 90), Ev.sleep (1/5),
              Ev.write Chan.servo1 none, Ev.write Chan.servo2 none,
              Ev.write Chan.actuator none], 2, true⟩, 180) ∧
    (press_up noFail 0 s_rest (1/2)).ok = true ∧
    countWrites Chan.servo1 (press_up noFail 0 s_rest (1/2)).evs = 2 ∧
    (countWrites Chan.servo1 (press_up noFail 0 s_rest (1/2)).evs == 0) = false := by
  refine ⟨?_, ?_⟩
  · norm_num [shutdown, reset_servos, plate_out, move_actuator_smooth, detach_channels,
      noFail, s_rest]
  · rw [press_up_noFail]
    simp +decide [countWrites]

/-- C3 (amended): `shutdown()` is not a terminal transition: the code keeps
no lifecycle state, so after a completed shutdown a subsequent move call
(`press_up` on the resulting state) raises no error and performs its usual
2 channel writes per servo, re-driving the detached channels. -/
theorem c3_after_shutdown (s : PPState) (fuel : ℕ) (r : FRes) (tr hold : ℚ)
    (_h : shutdown noFail noFail fuel 0 s = some (r, tr)) :
    (press_up noFail 0 ⟨s.servo_up_angle, s.servo_down_angle, s.servo_neutral_angle,
        s.actuator_in_angle, s.actuator_out_angle, s.actuator_speed_percent, tr⟩ hold).ok
      = true ∧
    countWrites Chan.servo1 (press_up noFail 0 ⟨s.servo_up_angle, s.servo_down_angle,
        s.servo_neutral_angle, s.actuator_in_angle, s.actuator_out_angle,
        s.actuator_speed_percent, tr⟩ hold).evs = 2 := by
  rw [press_up_noFail]
  simp +decide [countWrites]

/-- Witness for C3 (amended) at a concrete input: shutdown from the resting
state, then `press_up` on the post-shutdown state. -/
theorem c3_after_shutdown_witness :
    (press_up noFail 0 ⟨30, 150, 90, 0, 180, 60, 180⟩ (1/2)).ok = true ∧
    countWrites Chan.servo1 (press_up noFail 0 ⟨30, 150, 90, 0, 180, 60, 180⟩ (1/2)).evs
      = 2 :=
  c3_after_shutdown s_rest 0
    ⟨[Ev.write Chan.servo1 (some 90), Ev.write Chan.servo2 (some 90), Ev.sleep (1/5),
      Ev.write Chan.servo1 none, Ev.write Chan.servo2 none, Ev.write Chan.actuator none],
     2, true⟩ 180 (1/2)
    (by norm_num [shutdown, reset_servos, plate_out, move_actuator_smooth, detach_channels,
      noFail, s_rest])

/-- C4: Termination of stepped sweeps: when the (clamped) target differs from
the current tracked angle by an integer `k`, the one-degree walk of
`_move_actuator_smooth` exits successfully within `|k|` iterations (so a
started move runs to completion); likewise the integer-valued mirrored walk
of `move_to_angle_mirrored` always exits within `|target − current|`
iterations.  As the claim notes, integrality is required: when the difference
between the float target and the current angle is not an integer, the
unit-step loop condition `angle != target` never becomes false and the loop
never exits, for any amount of fuel. -/
theorem c4_sweep_termination :
    (∀ (s : PPState) (target : ℚ) (k : ℤ),
        max 0 (min 180 target) - s.actuator_current_angle = (k : ℚ) →
        ∃ r : FRes × ℚ, move_actuator_smooth noFail k.natAbs 0 s target = some r ∧
          r.1.ok = true) ∧
    (∀ (c target speed : ℤ),
        ∃ evs tr, move_to_angle_mirrored ((max 0 (min 180 target)) - c).natAbs speed
          (some c) target = some (evs, tr)) ∧
    (∀ (step dly target : ℚ) (fuel idx : ℕ) (a : ℚ),
        (step = 1 ∨ step = -1) → (∀ k : ℤ, target - a ≠ k) →
        walkF noFail step dly target fuel idx a = none) := by
  refine ⟨?_, ?_, ?_⟩
  · intro s target k hk
    by_cases hc : s.actuator_current_angle = max 0 (min 180 target)
    · refine ⟨(⟨[], 0, true⟩, s.actuator_current_angle), ?_, rfl⟩
      simp only [move_actuator_smooth]
      rw [if_pos hc]
    · rcases lt_trichotomy ((k : ℚ)) 0 with hneg | hzero | hpos
      · have hlt : ¬ max 0 (min 180 target) > s.actuator_current_angle := by
          push_neg
          linarith
        have h0 : k ≤ 0 := by exact_mod_cast hneg.le
        have hnat : ((k.natAbs : ℕ) : ℚ) = -(k : ℚ) := by
          rw [Nat.cast_natAbs, abs_of_nonpos h0]
          push_cast
          ring
        obtain ⟨evs, hw⟩ := walkF_reaches (step_delay_from_speed_pp s) (-1) (Or.inr rfl)
          k.natAbs 0 s.actuator_current_angle (max 0 (min 180 target))
          (by rw [mul_neg_one, hnat]; linarith)
        refine ⟨(⟨evs, 0 + k.natAbs, true⟩, max 0 (min 180 target)), ?_, rfl⟩
        simp only [move_actuator_smooth]
        rw [if_neg hc, if_neg hlt, hw]
        simp
      · exact absurd (by linarith : max 0 (min 180 target) = s.actuator_current_angle)
          (fun h => hc h.symm)
      · have hgt : max 0 (min 180 target) > s.actuator_current_angle := by linarith
        have h0 : 0 ≤ k := by exact_mod_cast hpos.le
        have hnat : ((k.natAbs : ℕ) : ℚ) = (k : ℚ) := by
          rw [Nat.cast_natAbs, abs_of_nonneg h0]
        obtain ⟨evs, hw⟩ := walkF_reaches (step_delay_from_speed_pp s) 1 (Or.inl rfl)
          k.natAbs 0 s.actuator_current_angle (max 0 (min 180 target))
          (by rw [mul_one, hnat]; linarith)
        refine ⟨(⟨evs, 0 + k.natAbs, true⟩, max 0 (min 180 target)), ?_, rfl⟩
        simp only [move_actuator_smooth]
        rw [if_neg hc, if_pos hgt, hw]
        simp
  · intro c target speed
    by_cases hge : max 0 (min 180 target) ≥ c
    · obtain ⟨evs, hw⟩ := mirroredWalkLoop_reaches (step_delay_from_speed speed) 1
        (Or.inl rfl) (max 0 (min 180 target) - c).natAbs c (max 0 (min 180 target))
        (by omega)
      refine ⟨evs ++ write_mirrored (max 0 (min 180 target)), max 0 (min 180 target), ?_⟩
      simp only [move_to_angle_mirrored]
      rw [if_pos hge, hw]
    · obtain ⟨evs, hw⟩ := mirroredWalkLoop_reaches (step_delay_from_speed speed) (-1)
        (Or.inr rfl) (max 0 (min 180 target) - c).natAbs c (max 0 (min 180 target))
        (by omega)
      refine ⟨evs ++ write_mirrored (max 0 (min 180 target)), max 0 (min 180 target), ?_⟩
      simp only [move_to_angle_mirrored]
      rw [if_neg hge, hw]
  · intro step dly target fuel idx a hstep hint
    exact walkF_none_of_not_int dly step target hstep fuel idx a hint

/-- Witness for C4 at a concrete input: from tracked angle 5, a smooth move
to 7 (difference 2) completes successfully with fuel 2. -/
theorem c4_sweep_termination_witness :
    ∃ r : FRes × ℚ,
      move_actuator_smooth noFail (2 : ℤ).natAbs 0 ⟨30, 150, 90, 0, 180, 100, 5⟩ 7
        = some r ∧ r.1.ok = true :=
  c4_sweep_termination.1 ⟨30, 150, 90, 0, 180, 100, 5⟩ 7 2
    (by norm_num [min_def, max_def])

/-- C5 counterexample: calling the mirrored move again with the target equal
to the tracked angle (90 after a first `move_to_angle_mirrored(90)`) performs
one write per servo channel — the unconditional final mirrored write — not
zero. -/
theorem c5_idempotence_counterexample :
    move_to_angle_mirrored 0 60 (some 90) 90 = some (c5_evs, 90) ∧
    countWrites Chan.servo1 c5_evs = 1 ∧
    countWrites Chan.servo2 c5_evs = 1 ∧
    (countWrites Chan.servo1 c5_evs == 0) = false := by
  refine ⟨?_, ?_, ?_, ?_⟩
  · norm_num [move_to_angle_mirrored, mirroredWalkLoop, write_mirrored, c5_evs]
  · simp +decide [c5_evs, countWrites]
  · simp +decide [c5_evs, countWrites]
  · simp +decide [c5_evs, countWrites]

/-- C5 (amended): a mirrored move whose target equals the current tracked
angle performs no stepping and no sleep but still issues the final mirrored
target write — exactly one write per servo channel, so a repeated call is
not write-free; the single-actuator smooth move of `pp96.py`, by contrast,
returns immediately with no writes and no sleeps when the clamped target
equals the tracked angle. -/
theorem c5_noop_moves :
    (∀ (fuel : ℕ) (speed x : ℤ),
        move_to_angle_mirrored fuel speed (some (max 0 (min 180 x))) x =
          some (write_mirrored (max 0 (min 180 x)), max 0 (min 180 x))) ∧
    (∀ (x : ℤ), countWrites Chan.servo1 (write_mirrored x) = 1 ∧
        countWrites Chan.servo2 (write_mirrored x) = 1 ∧
        countSleeps (write_mirrored x) = 0) ∧
    (∀ (failAt : ℕ → Bool) (fuel idx : ℕ) (s : PPState) (t : ℚ),
        s.actuator_current_angle = max 0 (min 180 t) →
        move_actuator_smooth failAt fuel idx s t =
          some (⟨[], idx, true⟩, s.actuator_current_angle)) := by
  refine ⟨?_, ?_, ?_⟩
  · intro fuel speed x
    cases fuel <;> simp [move_to_angle_mirrored, mirroredWalkLoop]
  · intro x
    refine ⟨?_, ?_, ?_⟩ <;> simp +decide [write_mirrored, countWrites, countSleeps]
  · intro failAt fuel idx s t h
    simp only [move_actuator_smooth]
    rw [if_pos h]

/-- Witness for C5 at a concrete input: a smooth actuator move to 500 (clamped
to 180) from tracked angle 180 is a no-op. -/
theorem c5_noop_moves_witness :
    move_actuator_smooth noFail 0 0 s_default 500 = some (⟨[], 0, true⟩, 180) :=
  c5_noop_moves.2.2 noFail 0 0 s_default 500 (by norm_num [s_default, min_def, max_def])

/-- C6: Speed-to-delay mapping: `step_delay_from_speed` is a pure function;
on [1,100] it equals `((100 − percent) × 29 / 99 + 1)` milliseconds expressed
in seconds, it is monotonically non-increasing in the percentage, its
boundary values are 0.030 s at percent 1 and 0.001 s at percent 100, and the
`pp96.py` method `_step_delay_from_speed` computes the same value on the
(constructor-clamped) stored speed. -/
theorem c6_step_delay_spec :
    (∀ p : ℤ, 1 ≤ p → p ≤ 100 →
        step_delay_from_speed p = ((100 - (p : ℚ)) * 29 / 99 + 1) / 1000) ∧
    (∀ p q : ℤ, 1 ≤ p → p ≤ q → q ≤ 100 →
        step_delay_from_speed q ≤ step_delay_from_speed p) ∧
    step_delay_from_speed 1 = 30 / 1000 ∧
    step_delay_from_speed 100 = 1 / 1000 ∧
    (∀ s : PPState, 1 ≤ s.actuator_speed_percent → s.actuator_speed_percent ≤ 100 →
        step_delay_from_speed_pp s = step_delay_from_speed s.actuator_speed_percent) := by
  have key : ∀ p : ℤ, 1 ≤ p → p ≤ 100 →
      step_delay_from_speed p = ((100 - (p : ℚ)) * 29 / 99 + 1) / 1000 := by
    intro p h1 h2
    have hcl : max 1 (min 100 p) = p := by omega
    simp only [step_delay_from_speed, hcl]
    norm_num
  refine ⟨key, ?_, ?_, ?_, ?_⟩
  · intro p q h1 hpq h2
    rw [key p h1 (le_trans hpq h2), key q (le_trans h1 hpq) h2]
    have hc : (p : ℚ) ≤ (q : ℚ) := by exact_mod_cast hpq
    linarith
  · norm_num [step_delay_from_speed]
  · norm_num [step_delay_from_speed]
  · intro s h1 h2
    have hcl : max 1 (min 100 s.actuator_speed_percent) = s.actuator_speed_percent := by
      omega
    simp only [step_delay_from_speed_pp, step_delay_from_speed, hcl]

/-- Witness for C6 at concrete inputs: the formula at percent 60 and the
monotone comparison between percent 1 and percent 2. -/
theorem c6_step_delay_spec_witness :
    step_delay_from_speed 60 = ((100 - (60 : ℚ)) * 29 / 99 + 1) / 1000 ∧
    step_delay_from_speed 2 ≤ step_delay_from_speed 1 :=
  ⟨c6_step_delay_spec.1 60 (by norm_num) (by norm_num),
   c6_step_delay_spec.2.1 1 2 (by norm_num) (by norm_num) (by norm_num)⟩

/-- C7: Boundary clamp equivalence: for every failure pattern, fuel and
controller state, a smooth actuator move with a target below 0 is the very
same computation (writes, delays, resulting tracked angle) as a move to 0,
and a target above 180 the same as a move to 180; and the constructor's
speed clamp maps every integer into [1,100] — out-of-range inputs are
clamped, never rejected. -/
theorem c7_boundary_clamp :
    (∀ (failAt : ℕ → Bool) (fuel idx : ℕ) (s : PPState) (t : ℚ), t < 0 →
        move_actuator_smooth failAt fuel idx s t =
          move_actuator_smooth failAt fuel idx s 0) ∧
    (∀ (failAt : ℕ → Bool) (fuel idx : ℕ) (s : PPState) (t : ℚ), 180 < t →
        move_actuator_smooth failAt fuel idx s t =
          move_actuator_smooth failAt fuel idx s 180) ∧
    (∀ p : ℤ, 1 ≤ init_speed p ∧ init_speed p ≤ 100) := by
  refine ⟨?_, ?_, ?_⟩
  · intro failAt fuel idx s t ht
    have hcl : max 0 (min 180 t) = max 0 (min 180 (0 : ℚ)) := by
      rw [min_eq_right (by linarith : t ≤ 180), max_eq_left (by linarith : t ≤ 0)]
      norm_num [min_def, max_def]
    simp only [move_actuator_smooth, hcl]
  · intro failAt fuel idx s t ht
    have hcl : max 0 (min 180 t) = max 0 (min 180 (180 : ℚ)) := by
      rw [min_eq_left (by linarith : (180 : ℚ) ≤ t)]
      norm_num [min_def, max_def]
    simp only [move_actuator_smooth, hcl]
  · intro p
    simp only [init_speed]
    omega

/-- Witness for C7 at concrete inputs: a move to −10 equals a move to 0, and
a speed of 500 is clamped into [1,100]. -/
theorem c7_boundary_clamp_witness :
    move_actuator_smooth noFail 3 0 s_rest (-10) = move_actuator_smooth noFail 3 0 s_rest 0 ∧
    1 ≤ init_speed 500 ∧ init_speed 500 ≤ 100 :=
  ⟨c7_boundary_clamp.1 noFail 3 0 s_rest (-10) (by norm_num),
   (c7_boundary_clamp.2.2 500).1, (c7_boundary_clamp.2.2 500).2⟩

/-- C8: Write-failure atomicity: if any PWM write during a smooth actuator
move or a plate move fails, the failure propagates (`ok = false` in the run
result) and the tracked actuator angle returned is the original one — the
tracked position is never updated to the target on a failed move. -/
theorem c8_write_failure_atomicity :
    (∀ (failAt : ℕ → Bool) (fuel idx : ℕ) (s : PPState) (t : ℚ) (r : FRes) (tr : ℚ),
        move_actuator_smooth failAt fuel idx s t = some (r, tr) → r.ok = false →
        tr = s.actuator_current_angle) ∧
    (∀ (failAt : ℕ → Bool) (fuel idx : ℕ) (smooth : Bool) (s : PPState) (r : FRes) (tr : ℚ),
        plate_in failAt fuel idx smooth s = some (r, tr) → r.ok = false →
        tr = s.actuator_current_angle) ∧
    (∀ (failAt : ℕ → Bool) (fuel idx : ℕ) (smooth : Bool) (s : PPState) (r : FRes) (tr : ℚ),
        plate_out failAt fuel idx smooth s = some (r, tr) → r.ok = false →
        tr = s.actuator_current_angle) := by
  refine ⟨move_actuator_smooth_fail_tracked, ?_, ?_⟩
  · intro failAt fuel idx smooth s r tr h hok
    cases smooth with
    | true =>
      rw [plate_in, if_pos rfl] at h
      exact move_actuator_smooth_fail_tracked failAt fuel idx s _ r tr h hok
    | false =>
      rw [plate_in, if_neg (by simp)] at h
      split at h
      · cases h; rfl
      · cases h; cases hok
  · intro failAt fuel idx smooth s r tr h hok
    cases smooth with
    | true =>
      rw [plate_out, if_pos rfl] at h
      exact move_actuator_smooth_fail_tracked failAt fuel idx s _ r tr h hok
    | false =>
      rw [plate_out, if_neg (by simp)] at h
      split at h
      · cases h; rfl
      · cases h; cases hok

/-- Witness for C8 at a concrete input: with every write failing, the move
from tracked angle 0 toward 2 aborts on its first write and the tracked angle
stays 0. -/
theorem c8_write_failure_atomicity_witness :
    move_actuator_smooth (fun _ => true) 1 0 s_w8 2 = some (⟨[], 1, false⟩, 0) ∧
    (0 : ℚ) = s_w8.actuator_current_angle :=
  ⟨by norm_num [move_actuator_smooth, walkF, s_w8, min_def, max_def],
   c8_write_failure_atomicity.1 (fun _ => true) 1 0 s_w8 2 ⟨[], 1, false⟩ 0
     (by norm_num [move_actuator_smooth, walkF, s_w8, min_def, max_def]) rfl⟩

/-- C9 counterexample: when the very first channel write of `shutdown` (the
servo-1 neutral write of `_reset_servos`) fails, `shutdown` itself raises
(`ok = false`): only the detach block is guarded by `try/except`, not the
neutral-reset and plate-out writes, so shutdown is not failure-proof against
every pattern of write failures. -/
theorem c9_shutdown_counterexample :
    shutdown (fun _ => true) noFail 0 0 s_rest = some (⟨[], 1, false⟩, 180) ∧
    FRes.ok ⟨[], 1, false⟩ = false := by
  refine ⟨?_, rfl⟩
  norm_num [shutdown, reset_servos, s_rest]

/-- C9 (amended): failures while detaching channels during `shutdown` are
suppressed: under any detach-failure pattern whatsoever, if the unguarded
neutral-reset and plate-out writes themselves do not fail, a completed
`shutdown` reports success. -/
theorem c9_shutdown_detach_suppressed (detachFail : ℕ → Bool) (fuel idx : ℕ)
    (s : PPState) (r : FRes) (tr : ℚ)
    (h : shutdown noFail detachFail fuel idx s = some (r, tr)) : r.ok = true := by
  simp only [shutdown, reset_servos_noFail] at h
  rw [if_pos trivial] at h
  split at h
  · cases h
  · rename_i r2 tr2 heq
    have hok2 : r2.ok = true := by
      rw [plate_out, if_pos rfl] at heq
      exact move_actuator_smooth_ok_of_noFail fuel (idx + 2) s _ r2 tr2 heq
    rw [if_pos hok2] at h
    cases h
    rfl

/-- Witness for C9 (amended) at a concrete input: all three detaches fail and
shutdown still completes with `ok = true`. -/
theorem c9_shutdown_detach_suppressed_witness :
    shutdown noFail (fun _ => true) 0 0 s_rest = some (c9_res, 180) ∧ c9_res.ok = true :=
  ⟨by norm_num [shutdown, reset_servos, plate_out, move_actuator_smooth, detach_channels,
      noFail, s_rest, c9_res],
   c9_shutdown_detach_suppressed (fun _ => true) 0 0 s_rest c9_res 180
     (by norm_num [shutdown, reset_servos, plate_out, move_actuator_smooth, detach_channels,
        noFail, s_rest, c9_res])⟩

/-- C10: the non-smooth jump path does not clamp: `plate_in(smooth=False)`
and `plate_out(smooth=False)` write the configured actuator angle verbatim
and set the tracked angle to exactly that configured value; with the
out-of-range configuration `actuator_in_angle = 200` the tracked angle
becomes 200 > 180, whereas the smooth path clamps the same 200 to 180 (a
no-op from tracked angle 180). -/
theorem c10_jump_no_clamp :
    (∀ (fuel idx : ℕ) (s : PPState),
        plate_in noFail fuel idx false s =
          some (⟨[Ev.write Chan.actuator (some s.actuator_in_angle)], idx + 1, true⟩,
                s.actuator_in_angle)) ∧
    (∀ (fuel idx : ℕ) (s : PPState),
        plate_out noFail fuel idx false s =
          some (⟨[Ev.write Chan.actuator (some s.actuator_out_angle)], idx + 1, true⟩,
                s.actuator_out_angle)) ∧
    plate_in noFail 0 0 false s_oob =
      some (⟨[Ev.write Chan.actuator (some 200)], 1, true⟩, 200) ∧
    (180 : ℚ) < 200 ∧
    plate_in noFail 9 0 true s_oob = some (⟨[], 0, true⟩, 180) := by
  refine ⟨?_, ?_, ?_, by norm_num, ?_⟩
  · intro fuel idx s
    simp [plate_in, noFail]
  · intro fuel idx s
    simp [plate_out, noFail]
  · norm_num [plate_in, noFail, s_oob]
  · norm_num [plate_in, move_actuator_smooth, noFail, s_oob, min_def, max_def]

